import Mathlib

/-!
Verification development for the auth-module session/token lifecycle engine.

The repository holds two variant copies of the same `Auth` class:
`src/lib/core/auth.js` (called variant A below) and `src/unnamed/part_000`
(variant B).  The definitions in this file are a shallow embedding of those
classes: JavaScript values are modelled by `JSValue`, the key-value sync
store by a total function from keys to values, promises by explicit result
values, and the network transport by an oracle `Env` consumed one response
per observed request.  Observable side effects (storage writes, network
calls, error-bus notifications, navigation) are collected into event traces.

The utilities module (`isSet`, `isSameURL`, `isRelativeURL`) is imported by
both variants but is not among the source files; those three helpers are
modelled from the spec and marked as such in their doc comments.
-/

namespace AuthModule

/-- JavaScript runtime values as far as the engine inspects them: the unset
marker, null, booleans, integers, strings, and arrays of strings (the only
array shape the engine produces, via `String.prototype.split`). -/
inductive JSValue where
  | undefined
  | jsNull
  | bool (b : Bool)
  | num (n : Int)
  | str (s : String)
  | arr (elems : List String)
deriving DecidableEq, Repr

/-- JavaScript truthiness of a `JSValue`. Arrays are always truthy. -/
def JSValue.truthy : JSValue → Bool
  | .undefined => false
  | .jsNull => false
  | .bool b => b
  | .num n => decide (n ≠ 0)
  | .str s => decide (s ≠ "")
  | .arr _ => true

/-- JavaScript numeric coercion, restricted to the shapes the engine stores:
numbers coerce to themselves, booleans to 0/1, null to 0, integer-literal
strings to their value (other strings become NaN, modelled as `none`), and
undefined/arrays to NaN/none. -/
def toNum : JSValue → Option Int
  | .num n => some n
  | .bool b => some (if b then 1 else 0)
  | .jsNull => some 0
  | .str s => s.toInt?
  | .undefined => none
  | .arr _ => none

/-- The comparison `a >= v` between a number and a stored value, with
JavaScript coercion; a NaN comparand makes the comparison false. -/
def jsGE (a : Int) (v : JSValue) : Bool :=
  match toNum v with
  | some n => decide (n ≤ a)
  | none => false

/-- Split a character list on a separator character, keeping empty groups,
matching the JavaScript `split` semantics for a one-character separator. -/
def splitOnSep : List Char → Char → List (List Char)
  | [], _ => [[]]
  | c :: cs, sep =>
    match splitOnSep cs sep with
    | [] => [[]]
    | g :: gs => if c = sep then [] :: g :: gs else (c :: g) :: gs

/-- The space-delimited fields of a string (`s.split(' ')`). -/
def spaceFields (s : String) : List String :=
  (splitOnSep s.data ' ').map fun cs => String.mk cs

/-- `v.split(' ')`: only strings carry the `split` method; calling it on
any other value throws a TypeError.  On strings it yields an array. -/
def jsSplit (v : JSValue) : Except String JSValue :=
  match v with
  | .str s => .ok (.arr (spaceFields s))
  | _ => .error "TypeError: split is not a function"

/-- `v.split('Bearer ')[1]`, as used to strip the type off the stored
access token when building the profile-sync payload: the payload itself is
not part of the effect model, so only the TypeError thrown on a non-string
receiver is observable. -/
def jsSplitBearer (v : JSValue) : Except String Unit :=
  match v with
  | .str _ => .ok ()
  | _ => .error "TypeError: split is not a function"

/-- Whether an exceptional (thrown) outcome occurred. -/
def isThrown (e : Except String JSValue) : Bool :=
  match e with
  | .error _ => true
  | .ok _ => false

/-- The key-value sync store, flattened to a single key space
(storage tiers are reconciled by `syncUniversal`, out of scope here). -/
abbrev Store := String → JSValue

/-- A universal write: `$storage.setUniversal(key, value)`. -/
def Store.set (st : Store) (key : String) (v : JSValue) : Store :=
  fun k => if k = key then v else st k

/-- The option fields the token manager reads: `options.token.prefix`
(field `tokenBase` here) and `options.refresh_token.prefix`
(field `refreshBase`). -/
structure Options where
  tokenBase : String
  refreshBase : String
deriving DecidableEq, Repr

/-- Key for the access token of a strategy: `options.token.prefix + strategy`. -/
def tokenKey (o : Options) (strategy : String) : String :=
  o.tokenBase ++ strategy

/-- Key for the refresh token: `options.refresh_token.prefix + strategy`. -/
def refreshTokenKey (o : Options) (strategy : String) : String :=
  o.refreshBase ++ strategy

/-- Key for the expiration epoch: `options.token.prefix + "expiration." + strategy`. -/
def tokenExpirationKey (o : Options) (strategy : String) : String :=
  o.tokenBase ++ "expiration." ++ strategy

/-- Key for the scope record: `options.token.prefix + "scope." + strategy`. -/
def tokenScopeKey (o : Options) (strategy : String) : String :=
  o.tokenBase ++ "scope." ++ strategy

/-- `getToken(strategy)`: reads the universal token record. -/
def getToken (o : Options) (store : Store) (strategy : String) : JSValue :=
  store (tokenKey o strategy)

/-- `getRefreshToken(strategy)`: reads the universal refresh-token record. -/
def getRefreshToken (o : Options) (store : Store) (strategy : String) : JSValue :=
  store (refreshTokenKey o strategy)

/-- `getTokenExpiration(strategy)`: reads the universal expiration record. -/
def getTokenExpiration (o : Options) (store : Store) (strategy : String) : JSValue :=
  store (tokenExpirationKey o strategy)

/-- `getTokenScope(strategy)`: reads the universal scope record and
unconditionally applies `.split(' ')` to it — so a non-string stored value
(in particular an absent one) throws. -/
def getTokenScope (o : Options) (store : Store) (strategy : String) :
    Except String JSValue :=
  jsSplit (store (tokenScopeKey o strategy))

/-- `Array.isArray`. -/
def isJsArray : JSValue → Bool
  | .arr _ => true
  | _ => false

/-- `array.includes(x)` on the array values the engine produces. -/
def jsArrayIncludes : JSValue → String → Bool
  | .arr xs, s => xs.contains s
  | _, _ => false

/-- `hasScope(scope)`: reads the (split) scope record for the active
strategy; the falsy check on the result can never fire because a split
result is an array and arrays are truthy; the `Array.isArray` branch then
answers membership.  The dotted-path `getProp` fallback is unreachable
because `getTokenScope` only ever yields arrays; on such values `getProp`
would yield undefined, so the branch is modelled as `Boolean(undefined)`. -/
def hasScope (o : Options) (store : Store) (strategyName scope : String) :
    Except String JSValue :=
  match getTokenScope o store strategyName with
  | .error e => .error e
  | .ok userScopes =>
    if userScopes.truthy = false then .ok .undefined
    else if isJsArray userScopes then .ok (.bool (jsArrayIncludes userScopes scope))
    else .ok (.bool false)

/-- Observable effects of the engine, in program order.  The presentation
collaborator (the loading indicator) is out of the modelled effects, as are
the contents of network payloads. -/
inductive Ev where
  | universalWrite (key : String) (value : JSValue)
  | stateWrite (key : String) (value : JSValue)
  | profileSync
  | refreshExchange
  | dbAuthFetch
  | dispatch
  | schemeSetToken (token : String)
  | errorBus (method : String)
  | mountedCall
  | loginHookStart
  | delegateReset
  | cookieRemove
  | navigate (target : JSValue) (fullReplace : Bool)
deriving DecidableEq, Repr

/-- The reactive session state owned by the engine, plus the flattened
universal store. -/
structure SessionState where
  store : Store
  user : JSValue
  loggedIn : Bool

/-- An active strategy object with the optional capabilities the embedded
claims probe.  `name` is the registry name the object was registered under
(so `$state.strategy` and `this.strategy.name` agree). -/
structure Strategy where
  name : String
  hasReset : Bool
  hasLogin : Bool
deriving DecidableEq, Repr

/-- Result of a delegated strategy hook or of an awaited promise. -/
inductive HookOutcome where
  | resolve
  | reject (err : String)
deriving DecidableEq, Repr

/-- `setToken(strategy, token)` as a store update plus its write event. -/
def setToken (o : Options) (strategyName : String) (store : Store) (v : JSValue) :
    Store × Ev :=
  (store.set (tokenKey o strategyName) v, .universalWrite (tokenKey o strategyName) v)

/-- `setRefreshToken(strategy, refreshToken)`. -/
def setRefreshToken (o : Options) (strategyName : String) (store : Store) (v : JSValue) :
    Store × Ev :=
  (store.set (refreshTokenKey o strategyName) v,
   .universalWrite (refreshTokenKey o strategyName) v)

/-- `setTokenExpiration(strategy, tokenExpiration)`. -/
def setTokenExpiration (o : Options) (strategyName : String) (store : Store) (v : JSValue) :
    Store × Ev :=
  (store.set (tokenExpirationKey o strategyName) v,
   .universalWrite (tokenExpirationKey o strategyName) v)

/-- `setTokenScope(strategy, tokenScope)`. -/
def setTokenScope (o : Options) (strategyName : String) (store : Store) (v : JSValue) :
    Store × Ev :=
  (store.set (tokenScopeKey o strategyName) v,
   .universalWrite (tokenScopeKey o strategyName) v)

/-- Variant B `updateUser(user)`: builds the profile-sync payload — reading
the stored access token and stripping its type via `.split('Bearer ')`, the
refresh token, and the scope via `getTokenScope` — and fires a
fire-and-forget POST.  Payload construction throws a TypeError whenever the
token record or the scope record is not a string.  The response of the POST
is never observed, so the network oracle is not consumed. -/
def updateUser (o : Options) (strategyName : String) (store : Store) :
    Except String (List Ev) :=
  match jsSplitBearer (getToken o store strategyName) with
  | .error e => .error e
  | .ok _ =>
    match getTokenScope o store strategyName with
    | .error e => .error e
    | .ok _ => .ok [Ev.profileSync]

/-- `setUser(user)`: writes the `loggedIn` and `user` reactive state, then
calls `updateUser` (variant B; variant A inlines the same payload
construction before handing it to `request`).  A throw from the payload
construction escapes after the two state writes have happened. -/
def setUser (o : Options) (strategyName : String) (s : SessionState) (user : JSValue) :
    SessionState × List Ev × Option String :=
  let s1 : SessionState := { s with loggedIn := user.truthy, user := user }
  let evs := [Ev.stateWrite "loggedIn" (.bool user.truthy), Ev.stateWrite "user" user]
  match updateUser o strategyName s1.store with
  | .error e => (s1, evs, some e)
  | .ok evs2 => (s1, evs ++ evs2, none)

/-- `reset()`: without a `reset` capability, sets the user to the falsy
sentinel and clears the token and refresh-token records (in that order);
with the capability, delegates and on rejection reports to the error bus
tagged "reset" and re-raises.  The third component is `some err` when the
call threw or rejected. -/
def reset (o : Options) (strat : Strategy) (s : SessionState) (delegate : HookOutcome) :
    SessionState × List Ev × Option String :=
  if strat.hasReset = false then
    match setUser o strat.name s (.bool false) with
    | (s1, evs, some e) => (s1, evs, some e)
    | (s1, evs, none) =>
      let p1 := setToken o strat.name s1.store (.bool false)
      let p2 := setRefreshToken o strat.name p1.1 (.bool false)
      ({ s1 with store := p2.1 }, evs ++ [p1.2, p2.2], none)
  else
    match delegate with
    | .resolve => (s, [Ev.delegateReset], none)
    | .reject e => (s, [Ev.delegateReset, Ev.errorBus "reset"], some e)

/-- `wrapLogin(promise)`: sets `busy` true, and resets it to false when the
already-started promise settles, re-raising a rejection. -/
def wrapLogin (outcome : HookOutcome) : List Ev × Option String :=
  match outcome with
  | .resolve =>
    ([Ev.stateWrite "busy" (.bool true), Ev.stateWrite "busy" (.bool false)], none)
  | .reject e =>
    ([Ev.stateWrite "busy" (.bool true), Ev.stateWrite "busy" (.bool false)], some e)

/-- `login()`: without a login capability, resolves immediately.  Otherwise
the source evaluates `this.strategy.login(...arguments)` as the argument of
`wrapLogin` — so the delegated call starts first, and only then does
`wrapLogin` set `busy` to true.  A rejection is reported tagged "login" and
re-raised. -/
def login (strat : Strategy) (outcome : HookOutcome) : List Ev × Option String :=
  if strat.hasLogin = false then ([], none)
  else
    let w := wrapLogin outcome
    let evs := Ev.loginHookStart :: w.1
    match w.2 with
    | none => (evs, none)
    | some e => (evs ++ [Ev.errorBus "login"], some e)

/-- `setStrategy(name)`: compares `name` against the persisted universal
`strategy` key (the active-strategy name); on a match it resolves
immediately, otherwise it persists the new name and invokes `mounted()`
(delegated, modelled as the opaque `mountedCall` event). -/
def setStrategy (store : Store) (name : String) : Store × List Ev :=
  if store "strategy" = JSValue.str name then (store, [])
  else
    (store.set "strategy" (.str name),
     [Ev.universalWrite "strategy" (.str name), Ev.mountedCall])

/-- Number of universal storage writes in a trace. -/
def countWrites : List Ev → Nat
  | [] => 0
  | Ev.universalWrite _ _ :: tr => countWrites tr + 1
  | _ :: tr => countWrites tr

/-- Number of `mounted()` invocations in a trace. -/
def countMounted : List Ev → Nat
  | [] => 0
  | Ev.mountedCall :: tr => countMounted tr + 1
  | _ :: tr => countMounted tr

/-- Whether some occurrence of `a` appears strictly before some occurrence
of `b` in a trace. -/
def beforeInTrace (tr : List Ev) (a b : Ev) : Bool :=
  match tr with
  | [] => false
  | x :: rest => (x == a && rest.contains b) || beforeInTrace rest a b

/-- A headers object, restricted to the single key the engine inspects:
`headers['Authorization']` (`.undefined` models an absent key). -/
structure Headers where
  authorization : JSValue
deriving DecidableEq, Repr

/-- An endpoint config object, restricted to the fields the engine touches.
`none` models an absent property. -/
structure Endpoint where
  url : Option String
  headers : Option Headers
deriving DecidableEq, Repr

/-- `Object.assign({}, defaults, endpoint)`: own properties of `endpoint`
win; an `undefined` `defaults` argument is skipped. -/
def objAssign (defaults : Option Endpoint) (endpoint : Endpoint) : Endpoint :=
  match defaults with
  | none => endpoint
  | some d =>
    { url := match endpoint.url with | some u => some u | none => d.url
      headers := match endpoint.headers with | some h => some h | none => d.headers }

/-- The merged endpoint after `requestWith` has ensured a headers object:
`Object.assign({}, defaults, endpoint)` followed by
`if (!_endpoint.headers) _endpoint.headers = {}`. -/
def mergedEndpoint (defaults : Option Endpoint) (endpoint : Endpoint) : Endpoint :=
  let e1 := objAssign defaults endpoint
  match e1.headers with
  | none => { e1 with headers := some { authorization := .undefined } }
  | some _ => e1

/-- Modelled from the spec: `isSet` lives in the utilities module, which is
not among the source files; per the external-interface section a token is
injected when present and "set" (not the unset sentinel). -/
def isSet : JSValue → Bool
  | .undefined => false
  | _ => true

/-- Variant A `requestWith(strategy, endpoint, defaults)` up to its
delegation to `request`: reads the stored token, merges the endpoint,
ensures a headers object, and injects the token as the Authorization header
when no Authorization header is set and the token is set and truthy. -/
def requestWith (o : Options) (store : Store) (strategy : String)
    (endpoint : Endpoint) (defaults : Option Endpoint) : Endpoint :=
  let token := getToken o store strategy
  let e2 := mergedEndpoint defaults endpoint
  match e2.headers with
  | some h =>
    if (!h.authorization.truthy) && isSet token && token.truthy then
      { e2 with headers := some { authorization := token } }
    else e2
  | none => e2

/-- Variant B `requestWith(strategy, endpoint, defaults)` up to its
delegation to `request`: it reads the stored token into a local that the
rest of the function never uses, merges the endpoint and ensures a headers
object, and forwards the endpoint without any Authorization injection. -/
def requestWithVariantB (o : Options) (store : Store) (strategy : String)
    (endpoint : Endpoint) (defaults : Option Endpoint) : Endpoint :=
  let _token := getToken o store strategy
  mergedEndpoint defaults endpoint

/-- The JSON body fields of a token-endpoint response that the engine
reads: `token_type`, `access_token`, `refresh_token`, `expires_in`,
`scope`. -/
structure RespData where
  token_type : String
  access_token : String
  refresh_token : String
  expires_in : Int
  scope : String
deriving DecidableEq, Repr

/-- A transport response.  `data` is the body; the top-level
`access_token` and `refresh_token` fields model the response-level
properties that `getDBAuth` reads directly off the response object. -/
structure NetResp where
  data : RespData
  access_token : String
  refresh_token : String
deriving DecidableEq, Repr

/-- Outcome of one transport request: a resolution, or a rejection whose
error optionally carries `response.status` (`none` models an error without
a response object, e.g. a network failure). -/
inductive NetOutcome where
  | resolve (resp : NetResp)
  | reject (status : Option Int)
deriving DecidableEq, Repr

/-- The transport oracle: the outcome of the k-th observed request. -/
abbrev Env := Nat → NetOutcome

/-- Result of an intermediate pipeline operation. -/
inductive OpResult where
  | ok
  | rejected (status : Option Int)
  | faulted (msg : String)
deriving DecidableEq, Repr

/-- Result of a whole `request` call: the resolved body, a propagated
rejection (with the status of the propagated error when it has one), or an
escaped synchronous TypeError. -/
inductive ReqResult where
  | resolved (body : RespData)
  | rejected (status : Option Int)
  | faulted (msg : String)
deriving DecidableEq, Repr

/-- The fixed configuration of a pipeline call: option prefixes, the active
strategy name, and the current clock (`Date.now()`, milliseconds). -/
structure PipeCfg where
  opts : Options
  strategyName : String
  nowMs : Int

/-- Variant B `completeRequest(endpoint, defaults)`: dispatches the merged
endpoint through the transport and returns the response body; it attaches
no handler of its own for rejections (the caller handles them). -/
def completeRequest (env : Env) (k : Nat) : List Ev × Nat × ReqResult :=
  match env k with
  | .resolve r => ([Ev.dispatch], k + 1, .resolved r.data)
  | .reject st => ([Ev.dispatch], k + 1, .rejected st)

/-- Variant B `refreshToken()`: a form-encoded POST to the strategy's token
endpoint carrying `client_id`, the stored refresh token and
`grant_type=refresh_token`; on success it persists the new access token
(type-prefixed), refresh token, expiration (`expires_in * 1000 +
Date.now()`) and scope, pushes the token into the strategy via `_setToken`,
and re-synchronizes the user profile via `updateUser`. -/
def refreshTokenOp (cfg : PipeCfg) (store : Store) (env : Env) (k : Nat) :
    Store × List Ev × Nat × OpResult :=
  match env k with
  | .reject st => (store, [Ev.refreshExchange], k + 1, .rejected st)
  | .resolve r =>
    let accessToken := r.data.token_type ++ " " ++ r.data.access_token
    let expires := r.data.expires_in * 1000 + cfg.nowMs
    let p1 := setToken cfg.opts cfg.strategyName store (.str accessToken)
    let p2 := setRefreshToken cfg.opts cfg.strategyName p1.1 (.str r.data.refresh_token)
    let p3 := setTokenExpiration cfg.opts cfg.strategyName p2.1 (.num expires)
    let p4 := setTokenScope cfg.opts cfg.strategyName p3.1 (.str r.data.scope)
    let evs := [Ev.refreshExchange, p1.2, p2.2, p3.2, p4.2,
                Ev.schemeSetToken accessToken]
    match updateUser cfg.opts cfg.strategyName p4.1 with
    | .error msg => (p4.1, evs, k + 1, .faulted msg)
    | .ok evs2 => (p4.1, evs ++ evs2, k + 1, .ok)

/-- Variant B `getDBAuth()`: with no cached user it rejects immediately
(with a bare `Promise.reject()`, an error carrying no response) without
touching the network; otherwise it GETs the per-user credential endpoint,
persists and installs the returned tokens, and re-runs the refresh
protocol. -/
def getDBAuth (cfg : PipeCfg) (store : Store) (user : JSValue) (env : Env) (k : Nat) :
    Store × List Ev × Nat × OpResult :=
  if user.truthy = false then (store, [], k, .rejected none)
  else
    match env k with
    | .reject st => (store, [Ev.dbAuthFetch], k + 1, .rejected st)
    | .resolve r =>
      let p1 := setToken cfg.opts cfg.strategyName store (.str r.access_token)
      let p2 := setRefreshToken cfg.opts cfg.strategyName p1.1 (.str r.refresh_token)
      let rest := refreshTokenOp cfg p2.1 env (k + 1)
      (rest.1,
       Ev.dbAuthFetch :: p1.2 :: p2.2 :: Ev.schemeSetToken r.access_token :: rest.2.1,
       rest.2.2.1, rest.2.2.2)

/-- The pre-flight guard of variant B `request`: an expiration record and a
refresh-token record are both present (truthy) and `Date.now()` is at or
past the expiration. -/
def requestBGuard (cfg : PipeCfg) (store : Store) : Bool :=
  (getTokenExpiration cfg.opts store cfg.strategyName).truthy
    && (getRefreshToken cfg.opts store cfg.strategyName).truthy
    && jsGE cfg.nowMs (getTokenExpiration cfg.opts store cfg.strategyName)

/-- The `.catch(error => ...)` handler of variant B `request`, entered with
the status of the rejected chain (`none` when the error carries no response
object, in which case reading `error.response.status` itself throws).  On
status 400 it runs `getDBAuth`, then `refreshToken`, then dispatches; any
failure in that chain is reported to the error bus tagged "completeRequest"
and propagated.  On any other status it reports and propagates directly. -/
def requestBCatchBody (cfg : PipeCfg) (store : Store) (user : JSValue) (env : Env)
    (k : Nat) (status : Option Int) : Store × List Ev × ReqResult :=
  match status with
  | none => (store, [], .faulted "TypeError: cannot read status of undefined")
  | some code =>
    if code = 400 then
      let g := getDBAuth cfg store user env k
      match g.2.2.2 with
      | .ok =>
        let rt := refreshTokenOp cfg g.1 env g.2.2.1
        match rt.2.2.2 with
        | .ok =>
          let c := completeRequest env rt.2.2.1
          match c.2.2 with
          | .resolved body => (rt.1, g.2.1 ++ rt.2.1 ++ c.1, .resolved body)
          | .rejected st =>
            (rt.1, g.2.1 ++ rt.2.1 ++ c.1 ++ [Ev.errorBus "completeRequest"],
             .rejected st)
          | .faulted m => (rt.1, g.2.1 ++ rt.2.1 ++ c.1, .faulted m)
        | .rejected st =>
          (rt.1, g.2.1 ++ rt.2.1 ++ [Ev.errorBus "completeRequest"], .rejected st)
        | .faulted _ =>
          (rt.1, g.2.1 ++ rt.2.1 ++ [Ev.errorBus "completeRequest"], .rejected none)
      | .rejected st =>
        (g.1, g.2.1 ++ [Ev.errorBus "completeRequest"], .rejected st)
      | .faulted _ =>
        (g.1, g.2.1 ++ [Ev.errorBus "completeRequest"], .rejected none)
    else
      (store, [Ev.errorBus "completeRequest"], .rejected (some code))

/-- The `.catch(error => ...)` handler with the trace of the already-run
refresh/dispatch chain (`acc`) prepended. -/
def requestBCatch (cfg : PipeCfg) (store : Store) (user : JSValue) (env : Env) (k : Nat)
    (acc : List Ev) (status : Option Int) : Store × List Ev × ReqResult :=
  let b := requestBCatchBody cfg store user env k status
  (b.1, acc ++ b.2.1, b.2.2)

/-- Variant B `request(endpoint, defaults)`: when the pre-flight guard
holds, runs the refresh protocol and then dispatches, with the rejection
handler above attached to the whole refresh-then-dispatch chain; otherwise
it dispatches directly, reporting a dispatch rejection to the error bus
tagged "completeRequest" and propagating it. -/
def requestB (cfg : PipeCfg) (store : Store) (user : JSValue) (env : Env) :
    Store × List Ev × ReqResult :=
  if requestBGuard cfg store then
    let rt := refreshTokenOp cfg store env 0
    match rt.2.2.2 with
    | .ok =>
      let c := completeRequest env rt.2.2.1
      match c.2.2 with
      | .resolved body => (rt.1, rt.2.1 ++ c.1, .resolved body)
      | .rejected st => requestBCatch cfg rt.1 user env c.2.1 (rt.2.1 ++ c.1) st
      | .faulted m => (rt.1, rt.2.1 ++ c.1, .faulted m)
    | .rejected st => requestBCatch cfg rt.1 user env rt.2.2.1 rt.2.1 st
    | .faulted m => (rt.1, rt.2.1, .faulted m)
  else
    let c := completeRequest env 0
    match c.2.2 with
    | .resolved body => (store, c.1, .resolved body)
    | .rejected st => (store, c.1 ++ [Ev.errorBus "completeRequest"], .rejected st)
    | .faulted m => (store, c.1, .faulted m)

/-- Variant A `completeRequest(endpoint, defaults)`: as variant B, but with
its own catch that reports a rejection to the error bus tagged
"completeRequest" before re-raising it. -/
def completeRequestA (env : Env) (k : Nat) : List Ev × Nat × ReqResult :=
  match env k with
  | .resolve r => ([Ev.dispatch], k + 1, .resolved r.data)
  | .reject st => ([Ev.dispatch, Ev.errorBus "completeRequest"], k + 1, .rejected st)

/-- The pre-flight guard of variant A `request`: as variant B but the clock
is `now.getTime() / 1000 | 0` (seconds; the source truncates with a bitwise
or, modelled as integer division, which agrees on the nonnegative clock
values the platform produces). -/
def requestAGuard (cfg : PipeCfg) (store : Store) : Bool :=
  (getTokenExpiration cfg.opts store cfg.strategyName).truthy
    && (getRefreshToken cfg.opts store cfg.strategyName).truthy
    && jsGE (cfg.nowMs / 1000) (getTokenExpiration cfg.opts store cfg.strategyName)

/-- Variant A `request(endpoint, defaults)`: when its guard holds, it runs
an inline token-endpoint exchange with a `.catch` attached after the
success handler; on success it persists the new token record (expiration in
seconds: `expires_in + now`) and installs the token, then dispatches inside
the success handler.  The `.catch` fires both on a refresh-exchange
rejection and on a rejection re-raised by that first dispatch (whose own
catch has already reported it to the error bus), and in either case it
dispatches `completeRequest` (again): a post-refresh dispatch rejection is
therefore retried once and the second dispatch's outcome is the call's
result.  Without the guard it dispatches directly. -/
def requestA (cfg : PipeCfg) (store : Store) (env : Env) :
    Store × List Ev × ReqResult :=
  if requestAGuard cfg store then
    match env 0 with
    | .resolve r =>
      let accessToken := r.data.token_type ++ " " ++ r.data.access_token
      let expires := r.data.expires_in + cfg.nowMs / 1000
      let p1 := setToken cfg.opts cfg.strategyName store (.str accessToken)
      let p2 := setRefreshToken cfg.opts cfg.strategyName p1.1 (.str r.data.refresh_token)
      let p3 := setTokenExpiration cfg.opts cfg.strategyName p2.1 (.num expires)
      let p4 := setTokenScope cfg.opts cfg.strategyName p3.1 (.str r.data.scope)
      let c := completeRequestA env 1
      match c.2.2 with
      | .resolved body =>
        (p4.1,
         [Ev.refreshExchange, p1.2, p2.2, p3.2, p4.2, Ev.schemeSetToken accessToken]
           ++ c.1,
         .resolved body)
      | .rejected _ =>
        let c2 := completeRequestA env c.2.1
        (p4.1,
         [Ev.refreshExchange, p1.2, p2.2, p3.2, p4.2, Ev.schemeSetToken accessToken]
           ++ c.1 ++ c2.1,
         c2.2.2)
      | .faulted m =>
        (p4.1,
         [Ev.refreshExchange, p1.2, p2.2, p3.2, p4.2, Ev.schemeSetToken accessToken]
           ++ c.1,
         .faulted m)
    | .reject _ =>
      let c := completeRequestA env 1
      (store, Ev.refreshExchange :: c.1, c.2.2)
  else
    let c := completeRequestA env 0
    (store, c.1, c.2.2)

/-- Number of token-endpoint exchanges (refresh-protocol runs) in a trace. -/
def countRefresh : List Ev → Nat
  | [] => 0
  | Ev.refreshExchange :: tr => countRefresh tr + 1
  | _ :: tr => countRefresh tr

/-- Number of per-user credential fetches (secondary recoveries) in a trace. -/
def countDbFetch : List Ev → Nat
  | [] => 0
  | Ev.dbAuthFetch :: tr => countDbFetch tr + 1
  | _ :: tr => countDbFetch tr

/-- Number of dispatches of the original request in a trace. -/
def countDispatch : List Ev → Nat
  | [] => 0
  | Ev.dispatch :: tr => countDispatch tr + 1
  | _ :: tr => countDispatch tr

/-- The sub-trace of transport events: refresh exchanges, credential
fetches and dispatches, in order. -/
def netOnly : List Ev → List Ev
  | [] => []
  | Ev.refreshExchange :: tr => Ev.refreshExchange :: netOnly tr
  | Ev.dbAuthFetch :: tr => Ev.dbAuthFetch :: netOnly tr
  | Ev.dispatch :: tr => Ev.dispatch :: netOnly tr
  | _ :: tr => netOnly tr

/-- The configured redirect map for the three named transitions
(`.undefined` models an absent mapping). -/
structure RedirectMap where
  loginTo : JSValue
  logoutTo : JSValue
  homeTo : JSValue
deriving DecidableEq, Repr

/-- `options.redirect[name]`. -/
def RedirectMap.get (m : RedirectMap) (name : String) : JSValue :=
  if name = "login" then m.loginTo
  else if name = "logout" then m.logoutTo
  else if name = "home" then m.homeTo
  else .undefined

/-- The redirect-related options: the map (`none` models a falsy
`options.redirect`), and the rewrite / full-path switches. -/
structure RedirectOptions where
  redirectMap : Option RedirectMap
  rewriteRedirects : Bool
  fullPathRedirect : Bool

/-- The current route. -/
structure RouteInfo where
  path : String
  fullPath : String
deriving DecidableEq, Repr

/-- The context a `redirect` call reads: the route, the universal store,
the one-shot oauth-redirect cookie, and whether we are in the browser. -/
structure RedirectCtx where
  route : RouteInfo
  store : Store
  cookie : JSValue
  browser : Bool

/-- Modelled from the spec: `isSameURL` lives in the utilities module,
which is not among the source files; the spec describes the loop check as
"the resolved target equals the current path". -/
def isSameURL (target fr : JSValue) : Bool := target == fr

/-- Modelled from the spec: `isRelativeURL` is absent from the sources; the
spec speaks of a relative path, modelled as a string beginning with a
slash. -/
def isRelativeURL : JSValue → Bool
  | .str s => s.startsWith "/"
  | _ => false

/-- The current location a `redirect` call compares against: the route's
full path or plain path, by the full-path switch. -/
def redirectFrom (o : RedirectOptions) (ctx : RedirectCtx) : JSValue :=
  .str (if o.fullPathRedirect then ctx.route.fullPath else ctx.route.path)

/-- The `login` rewrite: with rewrites enabled, a `login` transition from a
relative current path that is not already the target records the deferred
return-to value. -/
def redirectRewriteLogin (o : RedirectOptions) (store : Store) (name : String)
    (to0 fr : JSValue) : Store × List Ev :=
  if o.rewriteRedirects && name = "login" && isRelativeURL fr && !isSameURL to0 fr then
    (store.set "redirect" fr, [Ev.universalWrite "redirect" fr])
  else (store, [])

/-- The `home` rewrite: with rewrites enabled, a `home` transition consumes
the deferred return-to value (falling back to the one-shot cookie, removed
on use), always clears the stored value, and overrides the target when the
recovered value is relative. -/
def redirectRewriteHome (o : RedirectOptions) (ctx : RedirectCtx) (store : Store)
    (name : String) (to0 : JSValue) : Store × List Ev × JSValue :=
  if o.rewriteRedirects && name = "home" then
    let red0 := store "redirect"
    let consumed :=
      if ctx.cookie.truthy && red0.truthy = false then (ctx.cookie, [Ev.cookieRemove])
      else (red0, ([] : List Ev))
    let to2 := if isRelativeURL consumed.1 then consumed.1 else to0
    (store.set "redirect" .jsNull,
     consumed.2 ++ [Ev.universalWrite "redirect" JSValue.jsNull], to2)
  else (store, [], to0)

/-- `redirect(name, noRouter)`: returns early with no effects when no
redirect map is configured or the transition has no truthy mapping; applies
the rewrite phase; and, unless the resolved target equals the current
location (loop prevention), navigates — a full-page replace when in the
browser with `noRouter`, the router otherwise. -/
def redirect (o : RedirectOptions) (ctx : RedirectCtx) (name : String) (noRouter : Bool) :
    Store × List Ev :=
  match o.redirectMap with
  | none => (ctx.store, [])
  | some m =>
    let fr := redirectFrom o ctx
    let to0 := m.get name
    if to0.truthy = false then (ctx.store, [])
    else
      let r1 := redirectRewriteLogin o ctx.store name to0 fr
      let r2 := redirectRewriteHome o ctx r1.1 name to0
      if isSameURL r2.2.2 fr then (r2.1, r1.2 ++ r2.2.1)
      else
        (r2.1, r1.2 ++ r2.2.1 ++ [Ev.navigate r2.2.2 (ctx.browser && noRouter)])

/-- The targets of the navigation events in a trace. -/
def navTargets : List Ev → List JSValue
  | [] => []
  | Ev.navigate t _ :: tr => t :: navTargets tr
  | _ :: tr => navTargets tr

/-! Claim C4 — hasScope on recorded, missing scope. -/

def c4Options : Options := { tokenBase := "_token.", refreshBase := "_refresh_token." }

def c4StoreRW : Store := fun k =>
  if k = "_token.scope.local" then .str "read write" else .undefined

def c4StoreW : Store := fun k =>
  if k = "_token.scope.local" then .str "write" else .undefined

def c4StoreNone : Store := fun _ => .undefined

/-- C4 counterexample: with no scope recorded for the active strategy,
`hasScope("read")` does not return undefined — `getTokenScope` splits the
absent value and throws a TypeError, which escapes `hasScope`. -/
theorem c4_counterexample :
    isThrown (hasScope c4Options c4StoreNone "local" "read") = true
      ∧ hasScope c4Options c4StoreNone "local" "read" ≠ Except.ok JSValue.undefined := by
  refine ⟨rfl, fun h => ?_⟩
  exact Except.noConfusion h

/-- C4 (amended): `hasScope("read")` returns true when the stored scope is
the string "read write" and false when it is "write"; when no scope is
recorded, the call throws (the absent value has no `split` method) instead
of returning undefined. -/
theorem c4_hasScope_cases (o : Options) (strategyName : String) (store : Store) :
    (store (tokenScopeKey o strategyName) = JSValue.str "read write" →
        hasScope o store strategyName "read" = .ok (.bool true))
  ∧ (store (tokenScopeKey o strategyName) = JSValue.str "write" →
        hasScope o store strategyName "read" = .ok (.bool false))
  ∧ (store (tokenScopeKey o strategyName) = JSValue.undefined →
        isThrown (hasScope o store strategyName "read") = true) := by
  refine ⟨fun h => ?_, fun h => ?_, fun h => ?_⟩ <;>
    · unfold hasScope getTokenScope jsSplit
      rw [h]
      rfl

/-- C4 witness: the three cases of `c4_hasScope_cases` at concrete stores. -/
theorem c4_hasScope_cases_witness :
    (c4StoreRW (tokenScopeKey c4Options "local") = JSValue.str "read write"
      ∧ hasScope c4Options c4StoreRW "local" "read" = .ok (.bool true))
  ∧ (c4StoreW (tokenScopeKey c4Options "local") = JSValue.str "write"
      ∧ hasScope c4Options c4StoreW "local" "read" = .ok (.bool false))
  ∧ (c4StoreNone (tokenScopeKey c4Options "local") = JSValue.undefined
      ∧ isThrown (hasScope c4Options c4StoreNone "local" "read") = true) :=
  ⟨⟨rfl, (c4_hasScope_cases c4Options "local" c4StoreRW).1 rfl⟩,
   ⟨rfl, (c4_hasScope_cases c4Options "local" c4StoreW).2.1 rfl⟩,
   ⟨rfl, (c4_hasScope_cases c4Options "local" c4StoreNone).2.2 rfl⟩⟩

/-! Claim C10 — getTokenScope always splits. -/

def c10Options : Options := { tokenBase := "_token.", refreshBase := "_refresh_token." }

def c10StoreStr : Store := fun k =>
  if k = "_token.scope.local" then .str "read write" else .undefined

def c10StoreNone : Store := fun _ => .undefined

/-- C10: `getTokenScope` applies a string split unconditionally, so with no
stored scope value both it and `hasScope` throw instead of returning an
absence marker; and whenever a string is stored the result is the array of
its space-delimited fields. -/
theorem c10_getTokenScope_split (o : Options) (strategyName scope : String)
    (store : Store) :
    (store (tokenScopeKey o strategyName) = JSValue.undefined →
        isThrown (getTokenScope o store strategyName) = true
          ∧ isThrown (hasScope o store strategyName scope) = true)
  ∧ (∀ s : String, store (tokenScopeKey o strategyName) = JSValue.str s →
        getTokenScope o store strategyName = .ok (.arr (spaceFields s))) := by
  constructor
  · intro h
    constructor
    · unfold getTokenScope jsSplit
      rw [h]
      rfl
    · unfold hasScope getTokenScope jsSplit
      rw [h]
      rfl
  · intro s h
    unfold getTokenScope jsSplit
    rw [h]

/-- C10 witness: both parts of `c10_getTokenScope_split` at concrete
stores. -/
theorem c10_getTokenScope_split_witness :
    (c10StoreNone (tokenScopeKey c10Options "local") = JSValue.undefined
      ∧ isThrown (getTokenScope c10Options c10StoreNone "local") = true
      ∧ isThrown (hasScope c10Options c10StoreNone "local" "read") = true)
  ∧ (c10StoreStr (tokenScopeKey c10Options "local") = JSValue.str "read write"
      ∧ getTokenScope c10Options c10StoreStr "local"
          = .ok (.arr (spaceFields "read write"))) :=
  ⟨⟨rfl, ((c10_getTokenScope_split c10Options "local" "read" c10StoreNone).1 rfl).1,
    ((c10_getTokenScope_split c10Options "local" "read" c10StoreNone).1 rfl).2⟩,
   ⟨rfl, (c10_getTokenScope_split c10Options "local" "read" c10StoreStr).2
     "read write" rfl⟩⟩

/-! Claim C5 — setStrategy effects. -/

def c5Store : Store := fun k =>
  if k = "strategy" then .str "local" else .undefined

/-- C5: `setStrategy` with the persisted active name performs no writes and
no `mounted` invocation and resolves immediately (empty effect trace); with
a different name it performs exactly one write — persisting the new name —
and exactly one `mounted` invocation. -/
theorem c5_setStrategy_effects (store : Store) (name : String) :
    (store "strategy" = JSValue.str name →
        (setStrategy store name).2 = []
          ∧ countWrites (setStrategy store name).2 = 0
          ∧ countMounted (setStrategy store name).2 = 0)
  ∧ (store "strategy" ≠ JSValue.str name →
        countWrites (setStrategy store name).2 = 1
          ∧ countMounted (setStrategy store name).2 = 1
          ∧ (setStrategy store name).1 "strategy" = JSValue.str name) := by
  constructor
  · intro h
    simp [setStrategy, h, countWrites, countMounted]
  · intro h
    simp [setStrategy, h, countWrites, countMounted, Store.set]

/-- C5 witness: both branches of `c5_setStrategy_effects` at a concrete
store. -/
theorem c5_setStrategy_effects_witness :
    (c5Store "strategy" = JSValue.str "local"
      ∧ (setStrategy c5Store "local").2 = []
      ∧ countWrites (setStrategy c5Store "local").2 = 0)
  ∧ (c5Store "strategy" ≠ JSValue.str "github"
      ∧ countWrites (setStrategy c5Store "github").2 = 1
      ∧ countMounted (setStrategy c5Store "github").2 = 1) := by
  have h1 := (c5_setStrategy_effects c5Store "local").1 rfl
  have hne : c5Store "strategy" ≠ JSValue.str "github" := by decide
  have h2 := (c5_setStrategy_effects c5Store "github").2 hne
  exact ⟨⟨rfl, h1.1, h1.2.1⟩, ⟨hne, h2.1, h2.2.1⟩⟩

/-! Claim C8 — getDBAuth with no cached user. -/

def c8Cfg : PipeCfg :=
  { opts := { tokenBase := "_token.", refreshBase := "_refresh_token." },
    strategyName := "local", nowMs := 5000 }

def c8Store : Store := fun _ => .undefined

def c8Env : Env := fun _ => .reject none

/-- C8: the secondary credential recovery with an absent (falsy) cached
user rejects immediately: no store change, an empty effect trace (zero
network requests), no transport response consumed. -/
theorem c8_getDBAuth_no_user (cfg : PipeCfg) (store : Store) (user : JSValue)
    (env : Env) (k : Nat) :
    user.truthy = false →
    getDBAuth cfg store user env k = (store, [], k, OpResult.rejected none) := by
  intro h
  simp [getDBAuth, h]

/-- C8 witness: `c8_getDBAuth_no_user` at the null user. -/
theorem c8_getDBAuth_no_user_witness :
    JSValue.truthy JSValue.jsNull = false
      ∧ getDBAuth c8Cfg c8Store JSValue.jsNull c8Env 0
          = (c8Store, [], 0, OpResult.rejected none) :=
  ⟨rfl, c8_getDBAuth_no_user c8Cfg c8Store JSValue.jsNull c8Env 0 rfl⟩

/-! Claim C7 — login and the busy bracket. -/

def c7Strategy : Strategy := { name := "local", hasReset := false, hasLogin := true }

/-- C7 counterexample: the delegated login call is evaluated as the
argument of `wrapLogin`, so it starts before `busy` is set to true — the
trace of a successful `login()` opens with the hook start, and no
busy-true write precedes the hook start. -/
theorem c7_counterexample :
    (login c7Strategy HookOutcome.resolve).1
        = [Ev.loginHookStart, Ev.stateWrite "busy" (JSValue.bool true),
           Ev.stateWrite "busy" (JSValue.bool false)]
      ∧ beforeInTrace (login c7Strategy HookOutcome.resolve).1
          (Ev.stateWrite "busy" (JSValue.bool true)) Ev.loginHookStart = false :=
  ⟨rfl, rfl⟩

/-- C7 (amended): with a login capability, the delegated call is initiated
first and `busy` is set true immediately afterwards — before the call can
settle — and reset to false when it settles, on both paths; on failure the
error is reported to the error bus tagged "login" and re-raised; without
the capability, `login()` resolves immediately with no effects (busy
untouched). -/
theorem c7_login_busy_bracket (strat : Strategy) (outcome : HookOutcome) :
    (strat.hasLogin = true →
        (login strat outcome).1.head? = some Ev.loginHookStart
        ∧ beforeInTrace (login strat outcome).1 Ev.loginHookStart
            (Ev.stateWrite "busy" (JSValue.bool true)) = true
        ∧ beforeInTrace (login strat outcome).1
            (Ev.stateWrite "busy" (JSValue.bool true))
            (Ev.stateWrite "busy" (JSValue.bool false)) = true
        ∧ (outcome = HookOutcome.resolve → (login strat outcome).2 = none)
        ∧ (∀ e, outcome = HookOutcome.reject e →
            (login strat outcome).2 = some e
              ∧ Ev.errorBus "login" ∈ (login strat outcome).1))
  ∧ (strat.hasLogin = false → login strat outcome = ([], none)) := by
  obtain ⟨n, hr, hl⟩ := strat
  cases hl <;> cases outcome <;>
    simp [login, wrapLogin, beforeInTrace]

/-- C7 witness: both branches of `c7_login_busy_bracket`, on the success
and failure outcomes and on a strategy without the capability. -/
theorem c7_login_busy_bracket_witness :
    ((login c7Strategy HookOutcome.resolve).2 = none
      ∧ (login c7Strategy (HookOutcome.reject "bad")).2 = some "bad"
      ∧ Ev.errorBus "login" ∈ (login c7Strategy (HookOutcome.reject "bad")).1)
  ∧ login { name := "local", hasReset := false, hasLogin := false }
      HookOutcome.resolve = ([], none) := by
  refine ⟨⟨?_, ?_, ?_⟩, ?_⟩
  · exact ((c7_login_busy_bracket c7Strategy HookOutcome.resolve).1 rfl).2.2.2.1 rfl
  · exact (((c7_login_busy_bracket c7Strategy (HookOutcome.reject "bad")).1
      rfl).2.2.2.2 "bad" rfl).1
  · exact (((c7_login_busy_bracket c7Strategy (HookOutcome.reject "bad")).1
      rfl).2.2.2.2 "bad" rfl).2
  · exact (c7_login_busy_bracket
      { name := "local", hasReset := false, hasLogin := false }
      HookOutcome.resolve).2 rfl

/-! Claim C3 — requestWith token injection. -/

def c3Options : Options := { tokenBase := "_token.", refreshBase := "_refresh_token." }

def c3Store : Store := fun k =>
  if k = "_token.local" then .str "Bearer abc" else .undefined

def c3Endpoint : Endpoint := { url := some "/api/data", headers := none }

/-- C3: variant A `requestWith` injects the stored token as the
Authorization header exactly when the merged endpoint has no truthy
Authorization header and the token is a set, truthy value, and otherwise
forwards the merged endpoint unmodified — while variant B `requestWith`
always forwards the merged endpoint with no injection at all (it reads the
token into a dead local), contradicting the claim. -/
theorem c3_requestWith_injection (o : Options) (store : Store) (strategy : String)
    (endpoint : Endpoint) (defaults : Option Endpoint) :
    (∀ h, (mergedEndpoint defaults endpoint).headers = some h →
        ((h.authorization.truthy = true →
            requestWith o store strategy endpoint defaults
              = mergedEndpoint defaults endpoint)
          ∧ ((getToken o store strategy).truthy = false →
            requestWith o store strategy endpoint defaults
              = mergedEndpoint defaults endpoint)
          ∧ (h.authorization.truthy = false → (getToken o store strategy).truthy = true →
            requestWith o store strategy endpoint defaults
              = { mergedEndpoint defaults endpoint with
                  headers := some { authorization := getToken o store strategy } })))
  ∧ requestWithVariantB o store strategy endpoint defaults
      = mergedEndpoint defaults endpoint := by
  refine ⟨fun h hh => ⟨fun ht => ?_, fun ht => ?_, fun ht htok => ?_⟩, rfl⟩
  · simp [requestWith, hh, ht]
  · simp [requestWith, hh, ht]
  · have hset : isSet (getToken o store strategy) = true := by
      cases hv : getToken o store strategy <;> simp_all [isSet, JSValue.truthy]
    simp [requestWith, hh, ht, hset, htok]

/-- C3 witness: at a store holding "Bearer abc" for the local strategy and
an endpoint with no headers, variant A injects the token while variant B
forwards the merged endpoint with its Authorization slot still unset. -/
theorem c3_requestWith_injection_witness :
    ((mergedEndpoint none c3Endpoint).headers = some { authorization := .undefined }
      ∧ requestWith c3Options c3Store "local" c3Endpoint none
          = { url := some "/api/data",
              headers := some { authorization := .str "Bearer abc" } })
  ∧ requestWithVariantB c3Options c3Store "local" c3Endpoint none
      = mergedEndpoint none c3Endpoint := by
  refine ⟨⟨rfl, ?_⟩,
    (c3_requestWith_injection c3Options c3Store "local" c3Endpoint none).2⟩
  have h := ((c3_requestWith_injection c3Options c3Store "local" c3Endpoint none).1
    { authorization := .undefined } rfl).2.2 rfl rfl
  simpa [mergedEndpoint, objAssign, c3Endpoint] using h

/-! Claim C6 — reset without a reset capability. -/

def c6Options : Options := { tokenBase := "_token.", refreshBase := "_refresh_token." }

def c6Strategy : Strategy := { name := "local", hasReset := false, hasLogin := true }

def c6ColdState : SessionState :=
  { store := fun _ => .undefined, user := .num 1, loggedIn := true }

def c6HotState : SessionState :=
  { store := fun k =>
      if k = "_token.local" then .str "Bearer abc"
      else if k = "_token.scope.local" then .str "read write"
      else if k = "_refresh_token.local" then .str "r1"
      else .undefined,
    user := .num 1, loggedIn := true }

/-- C6 counterexample: with no token record stored for the active strategy
(for example after a previous reset), `reset()` does not resolve with the
records cleared — `setUser(false)` builds the profile-sync payload by
splitting the absent token, the TypeError escapes, and the token record is
never written. -/
theorem c6_counterexample :
    (reset c6Options c6Strategy c6ColdState HookOutcome.resolve).2.2
        = some "TypeError: split is not a function"
      ∧ (reset c6Options c6Strategy c6ColdState HookOutcome.resolve).1.store
          (tokenKey c6Options "local") ≠ JSValue.bool false := by
  refine ⟨rfl, fun h => ?_⟩
  exact JSValue.noConfusion h

/-- C6 (amended): provided the stored token and scope records for the
active strategy are strings (so that the profile-sync payload built inside
`setUser` does not throw), `reset()` on a strategy without a reset
capability resolves, sets the user to the falsy sentinel with `loggedIn`
false, clears both the token and the refresh-token records to the falsy
sentinel, and never delegates to the strategy. -/
theorem c6_reset_clears (o : Options) (strat : Strategy) (s : SessionState)
    (delegate : HookOutcome) (tk sc : String) :
    strat.hasReset = false →
    s.store (tokenKey o strat.name) = JSValue.str tk →
    s.store (tokenScopeKey o strat.name) = JSValue.str sc →
    (reset o strat s delegate).2.2 = none
      ∧ (reset o strat s delegate).1.user = JSValue.bool false
      ∧ (reset o strat s delegate).1.loggedIn = false
      ∧ (reset o strat s delegate).1.store (tokenKey o strat.name) = JSValue.bool false
      ∧ (reset o strat s delegate).1.store (refreshTokenKey o strat.name)
          = JSValue.bool false
      ∧ Ev.delegateReset ∉ (reset o strat s delegate).2.1 := by
  intro h0 h1 h2
  simp only [reset, h0, setUser, updateUser, jsSplitBearer, getToken, getTokenScope,
    jsSplit, h1, h2, setToken, setRefreshToken]
  refine ⟨rfl, rfl, rfl, ?_, ?_, ?_⟩
  · simp [Store.set]
  · simp [Store.set]
  · simp

/-- C6 witness: `c6_reset_clears` at a state holding string token and
scope records. -/
theorem c6_reset_clears_witness :
    c6Strategy.hasReset = false
      ∧ c6HotState.store (tokenKey c6Options "local") = JSValue.str "Bearer abc"
      ∧ c6HotState.store (tokenScopeKey c6Options "local") = JSValue.str "read write"
      ∧ (reset c6Options c6Strategy c6HotState HookOutcome.resolve).2.2 = none
      ∧ (reset c6Options c6Strategy c6HotState HookOutcome.resolve).1.store
          (tokenKey c6Options "local") = JSValue.bool false := by
  have h := c6_reset_clears c6Options c6Strategy c6HotState HookOutcome.resolve
    "Bearer abc" "read write" rfl rfl rfl
  exact ⟨rfl, rfl, rfl, h.1, h.2.2.2.1⟩

/-! Claim C9 — redirect loop prevention. -/

theorem navTargets_append (a b : List Ev) :
    navTargets (a ++ b) = navTargets a ++ navTargets b := by
  induction a with
  | nil => rfl
  | cons x tr ih => cases x <;> simp [navTargets, ih]

theorem navTargets_rewriteLogin (o : RedirectOptions) (store : Store) (name : String)
    (to0 fr : JSValue) :
    navTargets (redirectRewriteLogin o store name to0 fr).2 = [] := by
  unfold redirectRewriteLogin
  split <;> rfl

theorem navTargets_rewriteHome (o : RedirectOptions) (ctx : RedirectCtx) (store : Store)
    (name : String) (to0 : JSValue) :
    navTargets (redirectRewriteHome o ctx store name to0).2.1 = [] := by
  unfold redirectRewriteHome
  split
  · dsimp only
    split <;> rfl
  · rfl

/-- C9: under every redirect configuration (map, rewrite switch, full-path
switch) every navigation performed by `redirect` targets a location that is
not the current one — in particular, when the resolved target equals the
current path no navigation (router push or full-page replace) happens. -/
theorem c9_redirect_no_loop (o : RedirectOptions) (ctx : RedirectCtx) (name : String)
    (noRouter : Bool) :
    ((navTargets (redirect o ctx name noRouter).2).all
      fun t => !isSameURL t (redirectFrom o ctx)) = true := by
  unfold redirect
  cases hm : o.redirectMap with
  | none => rfl
  | some m =>
    dsimp only
    split
    · rfl
    · split
      · rename_i hsame
        simp [navTargets_append, navTargets_rewriteLogin, navTargets_rewriteHome]
      · rename_i hsame
        simp only [Bool.not_eq_true] at hsame
        simp [navTargets_append, navTargets_rewriteLogin, navTargets_rewriteHome,
          navTargets, hsame]

/-! Helper lemmas about the pipeline operations. -/

theorem tokenKey_ne_expirationKey (o : Options) (sn : String) :
    tokenKey o sn ≠ tokenExpirationKey o sn := by
  intro h
  have hl := congrArg String.length h
  rw [tokenKey, tokenExpirationKey] at hl
  simp only [String.length_append] at hl
  rw [show ("expiration." : String).length = 11 from rfl] at hl
  omega

theorem refresh_writes_token_lookup (o : Options) (sn : String) (store : Store)
    (a b : String) (e : Int) (sc : String) :
    ∃ s : String,
      ((((store.set (tokenKey o sn) (.str a)).set (refreshTokenKey o sn)
          (.str b)).set (tokenExpirationKey o sn) (.num e)).set
        (tokenScopeKey o sn) (.str sc)) (tokenKey o sn) = .str s := by
  unfold Store.set
  by_cases h2 : tokenKey o sn = tokenScopeKey o sn
  · exact ⟨sc, by rw [if_pos h2]⟩
  · rw [if_neg h2, if_neg (tokenKey_ne_expirationKey o sn)]
    by_cases h3 : tokenKey o sn = refreshTokenKey o sn
    · exact ⟨b, by rw [if_pos h3]⟩
    · exact ⟨a, by rw [if_neg h3, if_pos rfl]⟩

theorem refresh_writes_scope_lookup (o : Options) (sn : String) (store : Store)
    (a b : String) (e : Int) (sc : String) :
    ((((store.set (tokenKey o sn) (.str a)).set (refreshTokenKey o sn)
        (.str b)).set (tokenExpirationKey o sn) (.num e)).set
      (tokenScopeKey o sn) (.str sc)) (tokenScopeKey o sn) = .str sc := by
  unfold Store.set
  rw [if_pos rfl]

theorem updateUser_after_refresh_writes (o : Options) (sn : String) (store : Store)
    (a b : String) (e : Int) (sc : String) :
    updateUser o sn
      ((((store.set (tokenKey o sn) (.str a)).set (refreshTokenKey o sn)
          (.str b)).set (tokenExpirationKey o sn) (.num e)).set
        (tokenScopeKey o sn) (.str sc))
      = .ok [Ev.profileSync] := by
  obtain ⟨s, hs⟩ := refresh_writes_token_lookup o sn store a b e sc
  unfold updateUser jsSplitBearer getToken getTokenScope jsSplit
  rw [hs, refresh_writes_scope_lookup o sn store a b e sc]

theorem refreshTokenOp_trace_cons (cfg : PipeCfg) (store : Store) (env : Env) (k : Nat) :
    ∃ t, (refreshTokenOp cfg store env k).2.1 = Ev.refreshExchange :: t := by
  unfold refreshTokenOp
  cases h : env k with
  | reject st => exact ⟨[], rfl⟩
  | resolve r =>
    dsimp only
    split <;> exact ⟨_, rfl⟩

theorem refreshTokenOp_next (cfg : PipeCfg) (store : Store) (env : Env) (k : Nat) :
    (refreshTokenOp cfg store env k).2.2.1 = k + 1 := by
  unfold refreshTokenOp
  cases h : env k with
  | reject st => rfl
  | resolve r =>
    dsimp only
    split <;> rfl

theorem refreshTokenOp_netOnly (cfg : PipeCfg) (store : Store) (env : Env) (k : Nat) :
    netOnly (refreshTokenOp cfg store env k).2.1 = [Ev.refreshExchange] := by
  unfold refreshTokenOp
  cases h : env k with
  | reject st => rfl
  | resolve r =>
    dsimp only
    rw [setToken, setRefreshToken, setTokenExpiration, setTokenScope]
    dsimp only
    rw [updateUser_after_refresh_writes]
    rfl

theorem refreshTokenOp_reject (cfg : PipeCfg) (store : Store) (env : Env) (k : Nat)
    (st : Option Int) (h : env k = .reject st) :
    refreshTokenOp cfg store env k = (store, [Ev.refreshExchange], k + 1, .rejected st) := by
  unfold refreshTokenOp
  rw [h]

theorem refreshTokenOp_resolve_ok (cfg : PipeCfg) (store : Store) (env : Env) (k : Nat)
    (r : NetResp) (h : env k = .resolve r) :
    (refreshTokenOp cfg store env k).2.2.2 = .ok := by
  unfold refreshTokenOp
  rw [h]
  dsimp only
  rw [setToken, setRefreshToken, setTokenExpiration, setTokenScope]
  dsimp only
  rw [updateUser_after_refresh_writes]

theorem completeRequest_trace (env : Env) (k : Nat) :
    (completeRequest env k).1 = [Ev.dispatch] := by
  unfold completeRequest
  cases env k <;> rfl

theorem completeRequest_next (env : Env) (k : Nat) :
    (completeRequest env k).2.1 = k + 1 := by
  unfold completeRequest
  cases env k <;> rfl

theorem netOnly_append (a b : List Ev) :
    netOnly (a ++ b) = netOnly a ++ netOnly b := by
  induction a with
  | nil => rfl
  | cons x tr ih => cases x <;> simp [netOnly, ih]

/-! Claim C1 — pre-flight expiry check of request. -/

def c1Cfg : PipeCfg :=
  { opts := { tokenBase := "_token.", refreshBase := "_refresh_token." },
    strategyName := "local", nowMs := 5000 }

def c1HotStore : Store := fun k =>
  if k = "_token.expiration.local" then .num 1
  else if k = "_refresh_token.local" then .str "r1"
  else if k = "_token.local" then .str "Bearer a1"
  else if k = "_token.scope.local" then .str "read"
  else .undefined

def c1ColdStore : Store := fun _ => .undefined

def c1Resp : NetResp :=
  { data := { token_type := "Bearer", access_token := "a2", refresh_token := "r2",
              expires_in := 60, scope := "read write" },
    access_token := "dbA", refresh_token := "dbR" }

def c1Env : Env := fun _ => .resolve c1Resp

/-- C1: in both variants of `request`, when an expiration and a refresh
token are recorded for the active strategy and the clock is at or past the
expiration, the trace opens with the token-endpoint exchange (the refresh
protocol runs before any dispatch); otherwise the transport trace is
exactly one dispatch — the request goes out directly with zero refresh
calls. -/
theorem c1_request_preflight (cfg : PipeCfg) (store : Store) (user : JSValue)
    (env : Env) :
    (requestBGuard cfg store = true →
        (requestB cfg store user env).2.1.head? = some Ev.refreshExchange)
  ∧ (requestBGuard cfg store = false →
        netOnly (requestB cfg store user env).2.1 = [Ev.dispatch])
  ∧ (requestAGuard cfg store = true →
        (requestA cfg store env).2.1.head? = some Ev.refreshExchange)
  ∧ (requestAGuard cfg store = false →
        netOnly (requestA cfg store env).2.1 = [Ev.dispatch]) := by
  refine ⟨fun hg => ?_, fun hg => ?_, fun hg => ?_, fun hg => ?_⟩
  · obtain ⟨t, ht⟩ := refreshTokenOp_trace_cons cfg store env 0
    unfold requestB
    rw [hg, if_pos rfl]
    dsimp only
    cases hres : (refreshTokenOp cfg store env 0).2.2.2 with
    | ok =>
      cases hc : (completeRequest env (refreshTokenOp cfg store env 0).2.2.1).2.2 <;>
        simp [hc, requestBCatch, ht, completeRequest_trace]
    | rejected st => simp [requestBCatch, ht]
    | faulted m => simp [ht]
  · unfold requestB
    rw [hg, if_neg (by simp)]
    dsimp only
    cases hc : env 0 <;>
      simp [completeRequest, hc, netOnly_append, netOnly]
  · unfold requestA
    rw [hg, if_pos rfl]
    dsimp only
    cases hc : env 0 with
    | resolve r =>
      dsimp only
      cases hc2 : (completeRequestA env 1).2.2 <;> rfl
    | reject st => rfl
  · unfold requestA
    rw [hg, if_neg (by simp)]
    dsimp only
    cases hc : env 0 <;>
      simp [completeRequestA, hc, netOnly]

/-- C1 witness: both guard polarities of `c1_request_preflight` at concrete
stores (an expired record with a refresh token, and an empty store). -/
theorem c1_request_preflight_witness :
    (requestBGuard c1Cfg c1HotStore = true
      ∧ (requestB c1Cfg c1HotStore (.num 1) c1Env).2.1.head? = some Ev.refreshExchange)
  ∧ (requestBGuard c1Cfg c1ColdStore = false
      ∧ netOnly (requestB c1Cfg c1ColdStore (.num 1) c1Env).2.1 = [Ev.dispatch])
  ∧ (requestAGuard c1Cfg c1HotStore = true
      ∧ (requestA c1Cfg c1HotStore c1Env).2.1.head? = some Ev.refreshExchange)
  ∧ (requestAGuard c1Cfg c1ColdStore = false
      ∧ netOnly (requestA c1Cfg c1ColdStore c1Env).2.1 = [Ev.dispatch]) :=
  ⟨⟨by decide, (c1_request_preflight c1Cfg c1HotStore (.num 1) c1Env).1 (by decide)⟩,
   ⟨by decide, (c1_request_preflight c1Cfg c1ColdStore (.num 1) c1Env).2.1 (by decide)⟩,
   ⟨by decide, (c1_request_preflight c1Cfg c1HotStore (.num 1) c1Env).2.2.1 (by decide)⟩,
   ⟨by decide,
    (c1_request_preflight c1Cfg c1ColdStore (.num 1) c1Env).2.2.2 (by decide)⟩⟩

/-! Claim C2 — the 400-recovery cascade. -/

theorem requestB_reject_catch (cfg : PipeCfg) (store : Store) (user : JSValue)
    (env : Env) (st : Option Int) (hg : requestBGuard cfg store = true)
    (h0 : env 0 = .reject st) :
    requestB cfg store user env
      = requestBCatch cfg store user env 1 [Ev.refreshExchange] st := by
  unfold requestB
  rw [hg, if_pos rfl]
  dsimp only
  rw [refreshTokenOp_reject cfg store env 0 st h0]

theorem getDBAuth_skip (cfg : PipeCfg) (store : Store) (user : JSValue) (env : Env)
    (k : Nat) (hu : user.truthy = false) :
    getDBAuth cfg store user env k = (store, [], k, .rejected none) := by
  simp [getDBAuth, hu]

theorem getDBAuth_fetch_reject (cfg : PipeCfg) (store : Store) (user : JSValue)
    (env : Env) (k : Nat) (st : Option Int) (hu : user.truthy = true)
    (h : env k = .reject st) :
    getDBAuth cfg store user env k = (store, [Ev.dbAuthFetch], k + 1, .rejected st) := by
  simp [getDBAuth, hu, h]

theorem getDBAuth_resolve_ok_spec (cfg : PipeCfg) (store : Store) (user : JSValue)
    (env : Env) (k : Nat) (r r2 : NetResp) (hu : user.truthy = true)
    (h1 : env k = .resolve r) (h2 : env (k + 1) = .resolve r2) :
    netOnly (getDBAuth cfg store user env k).2.1 = [Ev.dbAuthFetch, Ev.refreshExchange]
      ∧ (getDBAuth cfg store user env k).2.2.1 = k + 2
      ∧ (getDBAuth cfg store user env k).2.2.2 = .ok := by
  unfold getDBAuth
  rw [hu, if_neg (by simp), h1]
  dsimp only
  simp only [setToken, setRefreshToken]
  refine ⟨?_, ?_, ?_⟩
  · simp [netOnly, refreshTokenOp_netOnly]
  · rw [refreshTokenOp_next]
  · rw [refreshTokenOp_resolve_ok _ _ _ _ r2 h2]

theorem getDBAuth_resolve_reject_spec (cfg : PipeCfg) (store : Store) (user : JSValue)
    (env : Env) (k : Nat) (r : NetResp) (st : Option Int) (hu : user.truthy = true)
    (h1 : env k = .resolve r) (h2 : env (k + 1) = .reject st) :
    netOnly (getDBAuth cfg store user env k).2.1 = [Ev.dbAuthFetch, Ev.refreshExchange]
      ∧ (getDBAuth cfg store user env k).2.2.1 = k + 2
      ∧ (getDBAuth cfg store user env k).2.2.2 = .rejected st := by
  unfold getDBAuth
  rw [hu, if_neg (by simp), h1]
  dsimp only
  simp only [setToken, setRefreshToken]
  refine ⟨?_, ?_, ?_⟩
  · simp [netOnly, refreshTokenOp_netOnly]
  · rw [refreshTokenOp_next]
  · rw [refreshTokenOp_reject _ _ _ _ st h2]

def c2Cfg : PipeCfg :=
  { opts := { tokenBase := "_token.", refreshBase := "_refresh_token." },
    strategyName := "local", nowMs := 5000 }

def c2Store : Store := fun k =>
  if k = "_token.expiration.local" then .num 1
  else if k = "_refresh_token.local" then .str "r1"
  else .undefined

def c2Resp : NetResp :=
  { data := { token_type := "Bearer", access_token := "a2", refresh_token := "r2",
              expires_in := 60, scope := "read write" },
    access_token := "dbA", refresh_token := "dbR" }

def c2Env : Env := fun k => if k = 0 then .reject (some 400) else .resolve c2Resp

/-- C2 counterexample: with an expired record, a pre-flight refresh
rejected with status 400, and every later transport call succeeding, the
pipeline performs the token-endpoint exchange three times — the failed
pre-flight run plus TWO re-runs (one inside the recovery routine, one
after it) — not the claimed single re-run (two exchanges in total). -/
theorem c2_counterexample :
    netOnly (requestB c2Cfg c2Store (.num 1) c2Env).2.1
        = [Ev.refreshExchange, Ev.dbAuthFetch, Ev.refreshExchange, Ev.refreshExchange,
           Ev.dispatch]
      ∧ countRefresh (requestB c2Cfg c2Store (.num 1) c2Env).2.1 = 3
      ∧ countDbFetch (requestB c2Cfg c2Store (.num 1) c2Env).2.1 = 1
      ∧ ¬ countRefresh (requestB c2Cfg c2Store (.num 1) c2Env).2.1 = 2 := by
  refine ⟨by decide, by decide, by decide, by decide⟩

/-- C2 (amended): when the pre-flight refresh is rejected with status 400
and a user is cached, exactly one per-user credential fetch runs, followed
by exactly two re-runs of the refresh protocol (the recovery routine
re-runs it once itself, the pipeline once more), and then the original
request is dispatched; a rejection with any other status, or a failure
anywhere in the recovery chain, is reported to the error bus tagged
"completeRequest" and propagated to the caller with no further retries. -/
theorem c2_refresh_400_recovery (cfg : PipeCfg) (store : Store) (user : JSValue)
    (env : Env) :
    requestBGuard cfg store = true →
    ((∀ r1 r2 r3, env 0 = .reject (some 400) → user.truthy = true →
        env 1 = .resolve r1 → env 2 = .resolve r2 → env 3 = .resolve r3 →
        netOnly (requestB cfg store user env).2.1
          = [Ev.refreshExchange, Ev.dbAuthFetch, Ev.refreshExchange,
             Ev.refreshExchange, Ev.dispatch])
    ∧ (∀ s : Int, env 0 = .reject (some s) → s ≠ 400 →
        netOnly (requestB cfg store user env).2.1 = [Ev.refreshExchange]
          ∧ Ev.errorBus "completeRequest" ∈ (requestB cfg store user env).2.1
          ∧ (requestB cfg store user env).2.2 = .rejected (some s))
    ∧ (env 0 = .reject (some 400) → user.truthy = false →
        netOnly (requestB cfg store user env).2.1 = [Ev.refreshExchange]
          ∧ Ev.errorBus "completeRequest" ∈ (requestB cfg store user env).2.1
          ∧ (requestB cfg store user env).2.2 = .rejected none)
    ∧ (∀ st2, env 0 = .reject (some 400) → user.truthy = true → env 1 = .reject st2 →
        netOnly (requestB cfg store user env).2.1
            = [Ev.refreshExchange, Ev.dbAuthFetch]
          ∧ Ev.errorBus "completeRequest" ∈ (requestB cfg store user env).2.1
          ∧ (requestB cfg store user env).2.2 = .rejected st2)
    ∧ (∀ r1 st3, env 0 = .reject (some 400) → user.truthy = true →
        env 1 = .resolve r1 → env 2 = .reject st3 →
        netOnly (requestB cfg store user env).2.1
            = [Ev.refreshExchange, Ev.dbAuthFetch, Ev.refreshExchange]
          ∧ Ev.errorBus "completeRequest" ∈ (requestB cfg store user env).2.1
          ∧ (requestB cfg store user env).2.2 = .rejected st3)
    ∧ (∀ r1 r2 st4, env 0 = .reject (some 400) → user.truthy = true →
        env 1 = .resolve r1 → env 2 = .resolve r2 → env 3 = .reject st4 →
        netOnly (requestB cfg store user env).2.1
            = [Ev.refreshExchange, Ev.dbAuthFetch, Ev.refreshExchange,
               Ev.refreshExchange]
          ∧ Ev.errorBus "completeRequest" ∈ (requestB cfg store user env).2.1
          ∧ (requestB cfg store user env).2.2 = .rejected st4)) := by
  intro hg
  refine ⟨?_, ?_, ?_, ?_, ?_, ?_⟩
  · intro r1 r2 r3 h0 hu h1 h2 h3
    rw [requestB_reject_catch cfg store user env (some 400) hg h0]
    unfold requestBCatch requestBCatchBody
    dsimp only
    rw [if_pos rfl]
    have hdb := getDBAuth_resolve_ok_spec cfg store user env 1 r1 r2 hu h1 h2
    rw [hdb.2.2]
    dsimp only
    rw [hdb.2.1]
    norm_num
    rw [refreshTokenOp_resolve_ok _ _ _ _ r3 h3]
    dsimp only
    rw [refreshTokenOp_next]
    norm_num
    cases hc : (completeRequest env 4).2.2 <;>
      simp [netOnly_append, netOnly, refreshTokenOp_netOnly, completeRequest_trace,
        hdb.1]
  · intro s h0 hs
    rw [requestB_reject_catch cfg store user env (some s) hg h0]
    unfold requestBCatch requestBCatchBody
    dsimp only
    rw [if_neg hs]
    refine ⟨by simp [netOnly_append, netOnly], by simp, rfl⟩
  · intro h0 hu
    rw [requestB_reject_catch cfg store user env (some 400) hg h0]
    unfold requestBCatch requestBCatchBody
    dsimp only
    rw [if_pos rfl, getDBAuth_skip cfg store user env 1 hu]
    dsimp only
    refine ⟨by simp [netOnly_append, netOnly], by simp, rfl⟩
  · intro st2 h0 hu h1
    rw [requestB_reject_catch cfg store user env (some 400) hg h0]
    unfold requestBCatch requestBCatchBody
    dsimp only
    rw [if_pos rfl, getDBAuth_fetch_reject cfg store user env 1 st2 hu h1]
    dsimp only
    refine ⟨by simp [netOnly_append, netOnly], by simp, rfl⟩
  · intro r1 st3 h0 hu h1 h2
    rw [requestB_reject_catch cfg store user env (some 400) hg h0]
    unfold requestBCatch requestBCatchBody
    dsimp only
    rw [if_pos rfl]
    have hdb := getDBAuth_resolve_reject_spec cfg store user env 1 r1 st3 hu h1 h2
    rw [hdb.2.2]
    dsimp only
    refine ⟨?_, by simp, rfl⟩
    simp [netOnly_append, netOnly, hdb.1]
  · intro r1 r2 st4 h0 hu h1 h2 h3
    rw [requestB_reject_catch cfg store user env (some 400) hg h0]
    unfold requestBCatch requestBCatchBody
    dsimp only
    rw [if_pos rfl]
    have hdb := getDBAuth_resolve_ok_spec cfg store user env 1 r1 r2 hu h1 h2
    rw [hdb.2.2]
    dsimp only
    rw [hdb.2.1]
    norm_num
    rw [refreshTokenOp_reject _ _ _ _ st4 h3]
    dsimp only
    refine ⟨?_, by simp, rfl⟩
    simp [netOnly_append, netOnly, refreshTokenOp_netOnly, hdb.1]

/-- C2 witness: every branch of `c2_refresh_400_recovery` at concrete
environments over an expired token record. -/
theorem c2_refresh_400_recovery_witness :
    (netOnly (requestB c2Cfg c2Store (.num 1) c2Env).2.1
        = [Ev.refreshExchange, Ev.dbAuthFetch, Ev.refreshExchange, Ev.refreshExchange,
           Ev.dispatch])
  ∧ (netOnly (requestB c2Cfg c2Store (.num 1) (fun _ => .reject (some 500))).2.1
        = [Ev.refreshExchange]
      ∧ (requestB c2Cfg c2Store (.num 1)
          (fun _ => .reject (some 500))).2.2 = .rejected (some 500))
  ∧ (netOnly (requestB c2Cfg c2Store JSValue.jsNull c2Env).2.1 = [Ev.refreshExchange]
      ∧ (requestB c2Cfg c2Store JSValue.jsNull c2Env).2.2 = .rejected none)
  ∧ (netOnly (requestB c2Cfg c2Store (.num 1)
        (fun k => if k = 1 then .reject (some 401) else c2Env k)).2.1
        = [Ev.refreshExchange, Ev.dbAuthFetch]) := by
  have ha := (c2_refresh_400_recovery c2Cfg c2Store (.num 1) c2Env (by decide)).1
    c2Resp c2Resp c2Resp (by decide) (by decide) (by decide) (by decide) (by decide)
  have hb := (c2_refresh_400_recovery c2Cfg c2Store (.num 1)
    (fun _ => .reject (some 500)) (by decide)).2.1 500 rfl (by decide)
  have hc := (c2_refresh_400_recovery c2Cfg c2Store JSValue.jsNull c2Env
    (by decide)).2.2.1 (by decide) (by decide)
  have hd := (c2_refresh_400_recovery c2Cfg c2Store (.num 1)
    (fun k => if k = 1 then .reject (some 401) else c2Env k) (by decide)).2.2.2.1
    (some 401) (by decide) (by decide) (by decide)
  exact ⟨ha, ⟨hb.1, hb.2.2⟩, ⟨hc.1, hc.2.2⟩, hd.1⟩

end AuthModule
